import Mathlib

/-!
Verification development for the HOMi authentication & identity lifecycle
engine (server-side auth module).

The TypeScript source is embedded shallowly:
* `encryption.util.ts` — the AES-256-GCM envelope scheme is embedded with the
  platform cipher primitives (`enc`, `dec`, `tagF`) as explicit function
  parameters satisfying the authenticated-encryption contract; the envelope
  construction (hex encoding, `':'`-joining, splitting, tag check) is embedded
  concretely.  Bytes are `Nat`s (< 256 where it matters), text is `List Char`.
* `User.ts` / `Profile.ts` — the Sequelize rows become structures; the
  `beforeCreate`/`beforeUpdate` hooks that bcrypt-hash the password (resp.
  encrypt the national id) are folded into the operations that trigger them.
  bcrypt is idealised: a digest remembers the hashed plaintext and the salt,
  and `bcryptCompare c d` succeeds exactly when `c` is the plaintext that was
  hashed — the functional contract of a correct password hash.
* `auth.service.ts` — every service method becomes a pure function from a
  database value (lists of user and profile rows, in insertion order) to a
  result `Except AuthError β` together with the post-state.  `findOne` is
  `List.find?`; a Sequelize `update` keyed on the found row's primary key is a
  `List.map` guarded on that key.  Random inputs (token plaintext, bcrypt
  salt, fresh UUIDs, the current time, the Google userinfo response) are
  explicit parameters.  SHA-256 (`hashToken`) is an explicit function
  parameter, since only equality of digests is ever used.
-/

namespace HOMi

/-! ## bcrypt model (`bcryptjs` as used by `User.ts` hooks) -/

/-- Idealised bcrypt digest: records which plaintext was hashed and with which
salt.  Models the contract `bcrypt.compare(c, bcrypt.hash(p, salt)) = (c = p)`. -/
structure BcryptDigest where
  plain : String
  salt : Nat
deriving DecidableEq, Repr

/-- `bcrypt.hash(plain, salt)` (the `beforeCreate`/`beforeUpdate` hook body). -/
def bcryptHash (plain : String) (salt : Nat) : BcryptDigest := ⟨plain, salt⟩

/-- `bcrypt.compare(candidate, digest)` — `User.comparePassword`. -/
def bcryptCompare (candidate : String) (digest : BcryptDigest) : Bool :=
  candidate == digest.plain

/-! ## Hex encoding (Node `Buffer`, `'hex'` encoding, lowercase output) -/

/-- Hex digit character for a value < 16 (`0`–`9`, `a`–`f`). -/
def hexDigitChar (n : Nat) : Char :=
  if n < 10 then Char.ofNat (48 + n) else Char.ofNat (87 + n)

/-- Two hex characters for one byte. -/
def hexEncodeByte (b : Nat) : List Char :=
  [hexDigitChar (b / 16), hexDigitChar (b % 16)]

/-- `buffer.toString('hex')`. -/
def hexEncode : List Nat → List Char
  | [] => []
  | b :: bs => hexEncodeByte b ++ hexEncode bs

/-- Numeric value of a hex character, if any. -/
def hexVal (c : Char) : Option Nat :=
  if '0' ≤ c ∧ c ≤ '9' then some (c.toNat - 48)
  else if 'a' ≤ c ∧ c ≤ 'f' then some (c.toNat - 87)
  else if 'A' ≤ c ∧ c ≤ 'F' then some (c.toNat - 55)
  else none

/-- `Buffer.from(text, 'hex')`, strict variant: fails on odd length or a
non-hex character.  (Node truncates instead; for the claims settled here only
the success case and the fact that failures stay failures matter.) -/
def hexDecode : List Char → Option (List Nat)
  | [] => some []
  | [_] => none
  | c1 :: c2 :: rest => do
    let hi ← hexVal c1
    let lo ← hexVal c2
    let bs ← hexDecode rest
    pure ((16 * hi + lo) :: bs)

/-- `text.split(':')` (JavaScript `String.prototype.split` with a one-char
separator: `n` separators yield `n + 1` parts, `''.split(':') = ['']`). -/
def splitOnColon : List Char → List (List Char)
  | [] => [[]]
  | c :: rest =>
    if c = ':' then [] :: splitOnColon rest
    else
      match splitOnColon rest with
      | [] => [[c]]
      | s :: ss => (c :: s) :: ss

/-! ## `encryption.util.ts` : AES-256-GCM envelope

`enc key iv pt` is the GCM ciphertext, `tagF key iv ct` the authentication
tag, `dec key iv ct` the raw GCM decryption; they are parameters standing for
the platform cipher. -/

/-- `encrypt(plaintext)`: envelope `hex(iv) ++ ":" ++ hex(tag) ++ ":" ++ hex(ct)`. -/
def encrypt (enc tagF : List Nat → List Nat → List Nat → List Nat)
    (key iv pt : List Nat) : List Char :=
  let ct := enc key iv pt
  let tag := tagF key iv ct
  hexEncode iv ++ ':' :: (hexEncode tag ++ ':' :: hexEncode ct)

/-- `decrypt(encryptedText)`: split on `':'`, require exactly 3 parts, hex
decode, decrypt, and verify the authentication tag.  Any failure (`throw` in
the source) is `none`. -/
def decrypt (dec tagF : List Nat → List Nat → List Nat → List Nat)
    (key : List Nat) (encryptedText : List Char) : Option (List Nat) :=
  match splitOnColon encryptedText with
  | [ivHex, tagHex, ctHex] => do
    let iv ← hexDecode ivHex
    let tag ← hexDecode tagHex
    let ct ← hexDecode ctHex
    let pt := dec key iv ct
    if tagF key iv ct = tag then some pt else none
  | _ => none

/-- `Profile.getDecryptedNationalId` (`Profile.ts`): `null` for a missing (or
empty, JS-falsy) stored value, `null` when `decrypt` throws, otherwise the
plaintext. -/
def getDecryptedNationalId (dec tagF : List Nat → List Nat → List Nat → List Nat)
    (key : List Nat) (national_id : Option (List Char)) : Option (List Nat) :=
  match national_id with
  | none => none
  | some s => if s.isEmpty then none else decrypt dec tagF key s

/-! ## JavaScript string primitives

The service manipulates JS strings with `toLowerCase`, `trim`, `startsWith`,
`endsWith`, `slice`, `includes` and `.length`.  They are modelled over the
character list of the string (structurally recursive, hence executable in
proofs); `toLowerCase` is ASCII, which covers every literal the service
compares. -/

/-- JS `s.toLowerCase()` (ASCII). -/
def toLowerCase (s : String) : String := String.mk (s.data.map Char.toLower)

/-- JS `s.trim()`. -/
def trimString (s : String) : String :=
  String.mk
    (((s.data.dropWhile Char.isWhitespace).reverse.dropWhile
      Char.isWhitespace).reverse)

/-- JS `s.startsWith(pre)`. -/
def startsWithString (s pre : String) : Bool := pre.data.isPrefixOf s.data

/-- JS `s.endsWith(suffix)`. -/
def endsWithString (s suffix : String) : Bool := suffix.data.isSuffixOf s.data

/-- JS `s.includes(c)` for a single character. -/
def containsCharString (s : String) (c : Char) : Bool := s.data.contains c

/-- JS `s.slice(n)` for n ≥ 0. -/
def dropString (s : String) (n : Nat) : String := String.mk (s.data.drop n)

/-- JS `s.length`. -/
def lengthString (s : String) : Nat := s.data.length

/-- JS falsiness test `!s` for a string. -/
def isEmptyString (s : String) : Bool := s.data.isEmpty

/-! ## Data model (`User.ts`, `Profile.ts`) -/

/-- `UserRole` (`User.ts`). -/
inductive Role
  | LANDLORD
  | TENANT
  | MAINTENANCE_PROVIDER
  | ADMIN
deriving DecidableEq, Repr

/-- `Gender` (`Profile.ts`). -/
inductive Gender
  | MALE
  | FEMALE
deriving DecidableEq, Repr

/-- A row of the `users` table.  `password_hash` holds the bcrypt digest the
`beforeCreate`/`beforeUpdate` hooks store; token expiries are epoch
milliseconds. -/
structure StoredUser where
  id : Nat
  email : String
  password_hash : BcryptDigest
  role : Role
  is_verified : Bool
  email_verified : Bool
  reset_token_hash : Option String
  reset_token_expires : Option Nat
  email_verification_token_hash : Option String
  email_verification_token_expires : Option Nat
deriving DecidableEq, Repr

/-- A row of the `profiles` table.  `national_id` is the at-rest (encrypted)
value, kept opaque here; `birthdate` is a day number. -/
structure StoredProfile where
  id : Nat
  user_id : Nat
  first_name : String
  last_name : String
  phone_number : String
  bio : Option String
  avatar_url : Option String
  national_id : Option String
  gender : Option Gender
  birthdate : Option Nat
  gamification_points : Nat
  preferred_budget_min : Option Int
  preferred_budget_max : Option Int
deriving DecidableEq, Repr

/-- The persistence store: the two tables, rows in insertion order
(`findOne` returns the first matching row). -/
structure DB where
  users : List StoredUser
  profiles : List StoredProfile
deriving DecidableEq, Repr

/-- `AuthError` (`auth.service.ts`). -/
structure AuthError where
  message : String
  statusCode : Nat
  code : String
deriving DecidableEq, Repr

/-- `AuthSuccessResponse`. -/
structure AuthSuccessResponse where
  success : Bool
  message : String
deriving DecidableEq, Repr

/-- `EmailVerificationResponse`. -/
structure EmailVerificationResponse where
  success : Bool
  message : String
  emailVerified : Bool
deriving DecidableEq, Repr

/-- The part of `LoginResponse` the lifecycle logic determines (the JWT pair
is opaque to every claim). -/
structure LoginData where
  user : StoredUser
  profile : StoredProfile
deriving DecidableEq, Repr

/-- `RegisterRequest`. -/
structure RegisterRequest where
  email : String
  password : String
  role : Role
  firstName : String
  lastName : String
  phone : String
deriving DecidableEq, Repr

/-- `CompleteVerificationRequest`. -/
structure CompleteVerificationRequest where
  nationalId : String
  gender : Gender
  birthdate : Nat
deriving DecidableEq, Repr

/-- `UpdateProfileRequest`: a missing field (`undefined`) is the outer `none`;
an explicit `null` for a nullable field is `some none`. -/
structure UpdateProfileRequest where
  firstName : Option String
  lastName : Option String
  phone : Option String
  bio : Option (Option String)
  avatarUrl : Option (Option String)
  preferredBudgetMin : Option (Option Int)
  preferredBudgetMax : Option (Option Int)
deriving DecidableEq, Repr

/-- The fields of the Google userinfo response that `loginWithGoogle`
destructures (an absent JSON field arrives as the empty string, which is what
the `!email` / `|| fallback` checks in the source test for). -/
structure GoogleUserInfo where
  email : String
  given_name : String
  family_name : String
  picture : String
deriving DecidableEq, Repr

/-! ## `AuthService` operations (`auth.service.ts`)

Each operation returns the service result together with the post-state; on
every error path the transaction is rolled back, so the post-state is the
input store unchanged. -/

/-- The `users` row `register` creates (`User.create` plus the `beforeCreate`
bcrypt hook; `email_verified` and the token fields take their column
defaults). -/
def registeredUser (input : RegisterRequest) (salt uid : Nat) : StoredUser :=
  { id := uid
    email := toLowerCase input.email
    password_hash := bcryptHash input.password salt
    role := input.role
    is_verified := false
    email_verified := false
    reset_token_hash := none
    reset_token_expires := none
    email_verification_token_hash := none
    email_verification_token_expires := none }

/-- The `profiles` row `register` creates (verification fields left null). -/
def registeredProfile (input : RegisterRequest) (uid pid : Nat) : StoredProfile :=
  { id := pid
    user_id := uid
    first_name := input.firstName
    last_name := input.lastName
    phone_number := input.phone
    bio := none
    avatar_url := none
    national_id := none
    gender := none
    birthdate := none
    gamification_points := 0
    preferred_budget_min := none
    preferred_budget_max := none }

/-- `AuthService.register`: email-conflict check, phone-conflict check, then
atomic creation of the user/profile pair.  `salt` is the bcrypt salt, `uid`
and `pid` the fresh row ids. -/
def register (input : RegisterRequest) (salt uid pid : Nat) (db : DB) :
    Except AuthError AuthSuccessResponse × DB :=
  match db.users.find? (fun u => u.email == toLowerCase input.email) with
  | some _ => (.error ⟨"Email already registered", 409, "EMAIL_EXISTS"⟩, db)
  | none =>
    match db.profiles.find? (fun p => p.phone_number == input.phone) with
    | some _ =>
      (.error ⟨"Phone number already registered", 409, "PHONE_EXISTS"⟩, db)
    | none =>
      (.ok ⟨true, "Registration successful. Please complete your profile verification to access all features."⟩,
        ⟨db.users ++ [registeredUser input salt uid],
          db.profiles ++ [registeredProfile input uid pid]⟩)

/-- `AuthService.completeVerification`.  `encryptFn` stands for the
`beforeUpdate` hook's `encrypt` call (AES-GCM with a fresh nonce). -/
def completeVerification (userId : Nat) (input : CompleteVerificationRequest)
    (encryptFn : String → String) (db : DB) :
    Except AuthError AuthSuccessResponse × DB :=
  match db.users.find? (fun u => u.id == userId) with
  | none => (.error ⟨"User not found", 404, "USER_NOT_FOUND"⟩, db)
  | some user =>
    if user.is_verified then
      (.error ⟨"Account is already verified", 400, "ALREADY_VERIFIED"⟩, db)
    else if !user.email_verified then
      (.error ⟨"Please verify your email address first before completing profile verification", 400, "EMAIL_NOT_VERIFIED"⟩, db)
    else
      match db.profiles.find? (fun p => p.user_id == userId) with
      | none => (.error ⟨"Profile not found", 404, "PROFILE_NOT_FOUND"⟩, db)
      | some _ =>
        (.ok ⟨true, "Verification completed successfully. Your account is now fully verified."⟩,
          ⟨db.users.map (fun u =>
              if u.id == userId then { u with is_verified := true } else u),
            db.profiles.map (fun p =>
              if p.user_id == userId then
                { p with national_id := some (encryptFn input.nationalId)
                         gender := some input.gender
                         birthdate := some input.birthdate }
              else p)⟩)

/-- The candidate list the `login` phone branch builds for an international
(`'+'`-prefixed) identifier: the identifier itself, plus, for each candidate
country-code length `i = 1..min(4, len-1)`, the local variant
`'0' + tail`, kept only when the tail has at least 9 characters. -/
def plusVariants (phoneInput : String) : List String :=
  let digitsOnly := dropString phoneInput 1
  phoneInput ::
    (List.range (min 4 (lengthString digitsOnly - 1))).filterMap (fun j =>
      let localPart := dropString digitsOnly (j + 1)
      if lengthString localPart ≥ 9 then some (String.mk ('0' :: localPart.data))
      else none)

/-- The profile lookup of `AuthService.login` for a non-email identifier:
international form matches any `plusVariants` candidate exactly; local
(`'0'`-prefixed) form matches exactly or via the SQL pattern
`LIKE '+%<digits-after-zero>'`; anything else matches exactly. -/
def resolveProfileByPhone (identifier : String) (db : DB) :
    Option StoredProfile :=
  let phoneInput := trimString identifier
  if startsWithString phoneInput "+" then
    db.profiles.find? (fun p => (plusVariants phoneInput).contains p.phone_number)
  else if startsWithString phoneInput "0" then
    let digitsAfterZero := dropString phoneInput 1
    db.profiles.find? (fun p =>
      p.phone_number == phoneInput ||
        (startsWithString p.phone_number "+" &&
          endsWithString (dropString p.phone_number 1) digitsAfterZero))
  else
    db.profiles.find? (fun p => p.phone_number == phoneInput)

/-- `AuthService.login`: resolve the identifier (email iff it contains `'@'`,
otherwise the phone heuristic), verify the password, return the user and
profile (the JWT pair is opaque).  Read-only: no store change. -/
def login (identifier password : String) (db : DB) :
    Except AuthError LoginData :=
  let userOpt : Option StoredUser :=
    if containsCharString identifier '@' then
      db.users.find? (fun u => u.email == toLowerCase identifier)
    else
      match resolveProfileByPhone identifier db with
      | none => none
      | some p => db.users.find? (fun u => u.id == p.user_id)
  match userOpt with
  | none => .error ⟨"Invalid credentials", 401, "INVALID_CREDENTIALS"⟩
  | some user =>
    if !bcryptCompare password user.password_hash then
      .error ⟨"Invalid credentials", 401, "INVALID_CREDENTIALS"⟩
    else
      match db.profiles.find? (fun p => p.user_id == user.id) with
      | none => .error ⟨"User profile not found", 500, "PROFILE_NOT_FOUND"⟩
      | some profile => .ok ⟨user, profile⟩

/-- `AuthService.forgotPassword`: look up by (lowercased) email; mint a reset
token (`token` is the fresh random value, `hashTok` is SHA-256) with a 1-hour
expiry and store the hash/expiry pair on the found row. -/
def forgotPassword (hashTok : String → String) (email token : String)
    (now : Nat) (db : DB) : Except AuthError AuthSuccessResponse × DB :=
  match db.users.find? (fun u => u.email == toLowerCase email) with
  | none =>
    (.error ⟨"No account found with this email address", 404, "EMAIL_NOT_FOUND"⟩, db)
  | some user =>
    (.ok ⟨true, "Password reset email sent. Please check your inbox."⟩,
      ⟨db.users.map (fun u =>
          if u.id == user.id then
            { u with reset_token_hash := some (hashTok token)
                     reset_token_expires := some (now + 60 * 60 * 1000) }
          else u),
        db.profiles⟩)

/-- `AuthService.resetPassword`: find the row whose stored reset-token hash
equals `hashTok token`; reject when none matches, or when the stored expiry is
missing or earlier than `now` (`expires < new Date()`); otherwise store the
re-hashed new password and clear both token fields in one update. -/
def resetPassword (hashTok : String → String) (token newPassword : String)
    (salt now : Nat) (db : DB) : Except AuthError AuthSuccessResponse × DB :=
  match db.users.find? (fun u => u.reset_token_hash == some (hashTok token)) with
  | none => (.error ⟨"Invalid or expired reset token", 400, "INVALID_RESET_TOKEN"⟩, db)
  | some user =>
    match user.reset_token_expires with
    | none => (.error ⟨"Reset token has expired", 400, "RESET_TOKEN_EXPIRED"⟩, db)
    | some expires =>
      if expires < now then
        (.error ⟨"Reset token has expired", 400, "RESET_TOKEN_EXPIRED"⟩, db)
      else
        (.ok ⟨true, "Password reset successful. You can now login with your new password."⟩,
          ⟨db.users.map (fun u =>
              if u.id == user.id then
                { u with password_hash := bcryptHash newPassword salt
                         reset_token_hash := none
                         reset_token_expires := none }
              else u),
            db.profiles⟩)

/-- The `users` row `loginWithGoogle` auto-provisions: the fixed placeholder
password `"GOOGLE_OAUTH_USER"` run through the bcrypt `beforeCreate` hook,
default role `TENANT`, email pre-verified. -/
def googleProvisionedUser (email : String) (salt uid : Nat) : StoredUser :=
  { id := uid
    email := toLowerCase email
    password_hash := bcryptHash "GOOGLE_OAUTH_USER" salt
    role := .TENANT
    is_verified := false
    email_verified := true
    reset_token_hash := none
    reset_token_expires := none
    email_verification_token_hash := none
    email_verification_token_expires := none }

/-- The `profiles` row `loginWithGoogle` auto-provisions from the Google
profile (phone and verification fields left for later completion). -/
def googleProvisionedProfile (g : GoogleUserInfo) (uid pid : Nat) :
    StoredProfile :=
  { id := pid
    user_id := uid
    first_name := if isEmptyString g.given_name then "User" else g.given_name
    last_name := g.family_name
    phone_number := ""
    bio := none
    avatar_url := if isEmptyString g.picture then none else some g.picture
    national_id := none
    gender := none
    birthdate := none
    gamification_points := 0
    preferred_budget_min := none
    preferred_budget_max := none }

/-- `AuthService.loginWithGoogle`.  `googleUser = none` models a failed
userinfo call (invalid provider token); otherwise the account is looked up by
the provider email and auto-provisioned on first login. -/
def loginWithGoogle (googleUser : Option GoogleUserInfo) (salt uid pid : Nat)
    (db : DB) : Except AuthError LoginData × DB :=
  match googleUser with
  | none => (.error ⟨"Invalid Google access token", 401, "INVALID_GOOGLE_TOKEN"⟩, db)
  | some g =>
    if isEmptyString g.email then
      (.error ⟨"Email not provided by Google", 400, "GOOGLE_EMAIL_MISSING"⟩, db)
    else
      match db.users.find? (fun u => u.email == toLowerCase g.email) with
      | some user =>
        match db.profiles.find? (fun p => p.user_id == user.id) with
        | none => (.error ⟨"User profile not found", 500, "PROFILE_NOT_FOUND"⟩, db)
        | some profile => (.ok ⟨user, profile⟩, db)
      | none =>
        (.ok ⟨googleProvisionedUser g.email salt uid,
            googleProvisionedProfile g uid pid⟩,
          ⟨db.users ++ [googleProvisionedUser g.email salt uid],
            db.profiles ++ [googleProvisionedProfile g uid pid]⟩)

/-- `AuthService.updateProfile`: merge the provided fields into the profile
row (the response payload is opaque to every claim). -/
def updateProfile (userId : Nat) (input : UpdateProfileRequest) (db : DB) :
    Except AuthError Unit × DB :=
  match db.users.find? (fun u => u.id == userId) with
  | none => (.error ⟨"User not found", 404, "USER_NOT_FOUND"⟩, db)
  | some _ =>
    match db.profiles.find? (fun p => p.user_id == userId) with
    | none => (.error ⟨"Profile not found", 404, "PROFILE_NOT_FOUND"⟩, db)
    | some _ =>
      (.ok (),
        ⟨db.users,
          db.profiles.map (fun p =>
            if p.user_id == userId then
              { p with first_name := input.firstName.getD p.first_name
                       last_name := input.lastName.getD p.last_name
                       phone_number := input.phone.getD p.phone_number
                       bio := input.bio.getD p.bio
                       avatar_url := input.avatarUrl.getD p.avatar_url
                       preferred_budget_min :=
                         input.preferredBudgetMin.getD p.preferred_budget_min
                       preferred_budget_max :=
                         input.preferredBudgetMax.getD p.preferred_budget_max }
            else p)⟩)

/-- `AuthService.sendVerificationEmail`: short-circuit with a success no-op
when the email is already verified; otherwise mint a verification token with
a 24-hour expiry and store its hash/expiry pair. -/
def sendVerificationEmail (hashTok : String → String) (userId : Nat)
    (token : String) (now : Nat) (db : DB) :
    Except AuthError EmailVerificationResponse × DB :=
  match db.users.find? (fun u => u.id == userId) with
  | none => (.error ⟨"User not found", 404, "USER_NOT_FOUND"⟩, db)
  | some user =>
    if user.email_verified then
      (.ok ⟨true, "Email is already verified.", true⟩, db)
    else
      (.ok ⟨true, "Verification email sent. Please check your inbox.", false⟩,
        ⟨db.users.map (fun u =>
            if u.id == userId then
              { u with email_verification_token_hash := some (hashTok token)
                       email_verification_token_expires :=
                         some (now + 24 * 60 * 60 * 1000) }
            else u),
          db.profiles⟩)

/-- `AuthService.verifyEmail`: find the row whose stored verification-token
hash equals `hashTok token`; reject when none matches, or when the stored
expiry is missing or earlier than `now`; otherwise set `email_verified` and
clear both token fields in one update. -/
def verifyEmail (hashTok : String → String) (token : String) (now : Nat)
    (db : DB) : Except AuthError EmailVerificationResponse × DB :=
  match db.users.find?
      (fun u => u.email_verification_token_hash == some (hashTok token)) with
  | none =>
    (.error ⟨"Invalid or expired verification token", 400, "INVALID_VERIFICATION_TOKEN"⟩, db)
  | some user =>
    match user.email_verification_token_expires with
    | none =>
      (.error ⟨"Verification token has expired. Please request a new one.", 400, "VERIFICATION_TOKEN_EXPIRED"⟩, db)
    | some expires =>
      if expires < now then
        (.error ⟨"Verification token has expired. Please request a new one.", 400, "VERIFICATION_TOKEN_EXPIRED"⟩, db)
      else
        (.ok ⟨true, "Email verified successfully! You can now complete your profile verification.", true⟩,
          ⟨db.users.map (fun u =>
              if u.id == user.id then
                { u with email_verified := true
                         email_verification_token_hash := none
                         email_verification_token_expires := none }
              else u),
            db.profiles⟩)


/-! ## Operation alphabet for lifecycle sequences

One constructor per `AuthService` method, carrying that call's inputs
(including the random values and the call time). -/

inductive Op where
  | opRegister (input : RegisterRequest) (salt uid pid : Nat)
  | opLogin (identifier password : String)
  | opCompleteVerification (userId : Nat) (input : CompleteVerificationRequest)
      (encryptFn : String → String)
  | opForgotPassword (hashTok : String → String) (email token : String) (now : Nat)
  | opResetPassword (hashTok : String → String) (token newPassword : String)
      (salt now : Nat)
  | opLoginWithGoogle (googleUser : Option GoogleUserInfo) (salt uid pid : Nat)
  | opUpdateProfile (userId : Nat) (input : UpdateProfileRequest)
  | opSendVerificationEmail (hashTok : String → String) (userId : Nat)
      (token : String) (now : Nat)
  | opVerifyEmail (hashTok : String → String) (token : String) (now : Nat)

/-- The store after one operation (`login` is read-only). -/
def Op.apply : Op → DB → DB
  | .opRegister input salt uid pid, db => (register input salt uid pid db).2
  | .opLogin _ _, db => db
  | .opCompleteVerification userId input encryptFn, db =>
      (completeVerification userId input encryptFn db).2
  | .opForgotPassword hashTok email token now, db =>
      (forgotPassword hashTok email token now db).2
  | .opResetPassword hashTok token newPassword salt now, db =>
      (resetPassword hashTok token newPassword salt now db).2
  | .opLoginWithGoogle googleUser salt uid pid, db =>
      (loginWithGoogle googleUser salt uid pid db).2
  | .opUpdateProfile userId input, db => (updateProfile userId input db).2
  | .opSendVerificationEmail hashTok userId token now, db =>
      (sendVerificationEmail hashTok userId token now db).2
  | .opVerifyEmail hashTok token now, db => (verifyEmail hashTok token now db).2

/-- The store after a sequence of operations. -/
def runOps (ops : List Op) (db : DB) : DB :=
  ops.foldl (fun d op => op.apply d) db

/-- The candidate set claim C7 describes, following the spec's words (for the
refinement comparison with `plusVariants`, which is taken from the source):
the identifier itself, plus the variants obtained by stripping `k` leading
digits (1 ≤ k ≤ 4) from the *digit characters* after `'+'` and prefixing the
remainder with `'0'`, generated only when the remainder has at least 9
digits. -/
def specPlusVariants (identifier : String) : List String :=
  let ds := (dropString identifier 1).data.filter (fun c => c.isDigit)
  identifier ::
    (List.range 4).filterMap (fun j =>
      let remainder := ds.drop (j + 1)
      if remainder.length ≥ 9 then some (String.mk ('0' :: remainder)) else none)

/-! ## Concrete scenario rows used by witnesses and counterexamples -/

/-- Google userinfo payload for a first federated login. -/
def exGoogleInfo : GoogleUserInfo := ⟨"alice@example.com", "Alice", "Smith", ""⟩

/-- Store after `loginWithGoogle` auto-provisions `exGoogleInfo` into an
empty store (salt 3, fresh ids 1 and 2). -/
def exGoogleDb : DB := (loginWithGoogle (some exGoogleInfo) 3 1 2 ⟨[], []⟩).2

/-- A user holding a live reset token: stored hash `"tok"`, expiry 1000 ms. -/
def exResetUser : StoredUser :=
  { id := 1
    email := "carol@example.com"
    password_hash := bcryptHash "OldPass1" 0
    role := .TENANT
    is_verified := false
    email_verified := true
    reset_token_hash := some "tok"
    reset_token_expires := some 1000
    email_verification_token_hash := none
    email_verification_token_expires := none }

def exResetDb : DB := ⟨[exResetUser], []⟩

/-- A user holding a live reset token with a far-future expiry. -/
def exConsumeUser : StoredUser :=
  { id := 2
    email := "frank@example.com"
    password_hash := bcryptHash "OldPass1" 0
    role := .TENANT
    is_verified := false
    email_verified := true
    reset_token_hash := some "tok3"
    reset_token_expires := some 99999
    email_verification_token_hash := none
    email_verification_token_expires := none }

def exConsumeDb : DB := ⟨[exConsumeUser], []⟩

/-- Store after the first (successful) `resetPassword` consumed `"tok3"`. -/
def exConsumedDb : DB :=
  (resetPassword (fun s => s) "tok3" "NewPass1" 7 10 exConsumeDb).2

/-- A fully verified user, for the monotonicity witness. -/
def exVerifiedUser : StoredUser :=
  { id := 9
    email := "dan@example.com"
    password_hash := bcryptHash "Pass1234" 0
    role := .LANDLORD
    is_verified := true
    email_verified := true
    reset_token_hash := none
    reset_token_expires := none
    email_verification_token_hash := none
    email_verification_token_expires := none }

def exVerifiedProfile : StoredProfile :=
  { id := 10
    user_id := 9
    first_name := "Dan"
    last_name := "D"
    phone_number := "0101234567"
    bio := none
    avatar_url := none
    national_id := some "enc"
    gender := some .MALE
    birthdate := some 7305
    gamification_points := 0
    preferred_budget_min := none
    preferred_budget_max := none }

def exSeqDb : DB := ⟨[exVerifiedUser], [exVerifiedProfile]⟩

/-- A lifecycle sequence touching most operations. -/
def exOps : List Op :=
  [ .opForgotPassword (fun s => s) "dan@example.com" "t1" 50
  , .opResetPassword (fun s => s) "t1" "NewPass99" 1 60
  , .opSendVerificationEmail (fun s => s) 9 "t2" 70
  , .opUpdateProfile 9 ⟨some "Daniel", none, none, none, none, none, none⟩
  , .opLoginWithGoogle (some exGoogleInfo) 4 11 12
  , .opLogin "dan@example.com" "NewPass99" ]

/-- An already-registered user for the duplicate-email conflict. -/
def exRegUser : StoredUser :=
  { id := 4
    email := "bob@x.com"
    password_hash := bcryptHash "Secret12" 0
    role := .TENANT
    is_verified := false
    email_verified := false
    reset_token_hash := none
    reset_token_expires := none
    email_verification_token_hash := none
    email_verification_token_expires := none }

def exRegDb : DB := ⟨[exRegUser], []⟩

/-- A second registration attempt with the same email in different case. -/
def exRegInput : RegisterRequest :=
  ⟨"Bob@X.com", "Secret34", .TENANT, "Bob", "B", "0111222333"⟩

/-- A stored profile whose phone contains a space, matching the code's
character-based variant of `"+20 123456789"` but no digit-based one. -/
def exPhoneProfile : StoredProfile :=
  { id := 1
    user_id := 1
    first_name := "a"
    last_name := "b"
    phone_number := "0 123456789"
    bio := none
    avatar_url := none
    national_id := none
    gender := none
    birthdate := none
    gamification_points := 0
    preferred_budget_min := none
    preferred_budget_max := none }

def exPhoneDb : DB := ⟨[], [exPhoneProfile]⟩

/-- A user who has verified neither email nor profile. -/
def exUnverUser : StoredUser :=
  { id := 5
    email := "eve@x.com"
    password_hash := bcryptHash "Secret56" 0
    role := .TENANT
    is_verified := false
    email_verified := false
    reset_token_hash := none
    reset_token_expires := none
    email_verification_token_hash := none
    email_verification_token_expires := none }

def exUnverProfile : StoredProfile :=
  { id := 6
    user_id := 5
    first_name := "Eve"
    last_name := "E"
    phone_number := "0123456780"
    bio := none
    avatar_url := none
    national_id := none
    gender := none
    birthdate := none
    gamification_points := 0
    preferred_budget_min := none
    preferred_budget_max := none }

def exUnverDb : DB := ⟨[exUnverUser], [exUnverProfile]⟩

/-- A user whose email is already verified. -/
def exEmailVerUser : StoredUser :=
  { id := 8
    email := "gail@x.com"
    password_hash := bcryptHash "Secret78" 0
    role := .LANDLORD
    is_verified := false
    email_verified := true
    reset_token_hash := none
    reset_token_expires := none
    email_verification_token_hash := none
    email_verification_token_expires := none }

def exEmailVerDb : DB := ⟨[exEmailVerUser], []⟩


/-! ### Hex / split round-trip lemmas -/

theorem hexVal_hexDigitChar {n : Nat} (h : n < 16) :
    hexVal (hexDigitChar n) = some n := by
  interval_cases n <;> decide

theorem hexDigitChar_ne_colon {n : Nat} (h : n < 16) : hexDigitChar n ≠ ':' := by
  interval_cases n <;> decide

theorem hexDecode_hexEncode {bs : List Nat} (h : ∀ b ∈ bs, b < 256) :
    hexDecode (hexEncode bs) = some bs := by
  induction bs with
  | nil => rfl
  | cons b bs ih =>
    have hb : b < 256 := h b (List.mem_cons_self ..)
    have hbs : ∀ x ∈ bs, x < 256 := fun x hx => h x (List.mem_cons_of_mem _ hx)
    have hhi : b / 16 < 16 := Nat.div_lt_of_lt_mul hb
    have hlo : b % 16 < 16 := Nat.mod_lt _ (by omega)
    simp only [hexEncode, hexEncodeByte, List.cons_append, List.nil_append,
      List.append_eq, hexDecode, hexVal_hexDigitChar hhi, hexVal_hexDigitChar hlo,
      Option.bind_eq_bind, Option.some_bind]
    rw [ih hbs]
    have : 16 * (b / 16) + b % 16 = b := by omega
    simp [this]

theorem ne_colon_of_mem_hexEncode {bs : List Nat} (h : ∀ b ∈ bs, b < 256) :
    ∀ c ∈ hexEncode bs, c ≠ ':' := by
  induction bs with
  | nil => simp [hexEncode]
  | cons b bs ih =>
    have hb : b < 256 := h b (List.mem_cons_self ..)
    have hhi : b / 16 < 16 := Nat.div_lt_of_lt_mul hb
    have hlo : b % 16 < 16 := Nat.mod_lt _ (by omega)
    intro c hc
    simp only [hexEncode, hexEncodeByte, List.cons_append, List.nil_append,
      List.mem_cons] at hc
    rcases hc with rfl | rfl | hc
    · exact hexDigitChar_ne_colon hhi
    · exact hexDigitChar_ne_colon hlo
    · exact ih (fun x hx => h x (List.mem_cons_of_mem _ hx)) c hc

theorem splitOnColon_ne_nil (s : List Char) : splitOnColon s ≠ [] := by
  induction s with
  | nil => simp [splitOnColon]
  | cons c rest ih =>
    by_cases hc : c = ':'
    · simp [splitOnColon, hc]
    · simp only [splitOnColon, if_neg hc]
      cases hsp : splitOnColon rest with
      | nil => simp
      | cons s ss => simp

theorem splitOnColon_append_no_colon {a : List Char} (h : ∀ c ∈ a, c ≠ ':')
    (s : List Char) :
    splitOnColon (a ++ s) =
      (a ++ (splitOnColon s).headI) :: (splitOnColon s).tail := by
  induction a with
  | nil =>
    simp only [List.nil_append]
    cases hsp : splitOnColon s with
    | nil => exact absurd hsp (splitOnColon_ne_nil s)
    | cons t ts => simp
  | cons c a ih =>
    have hc : c ≠ ':' := h c (List.mem_cons_self ..)
    have ha : ∀ x ∈ a, x ≠ ':' := fun x hx => h x (List.mem_cons_of_mem _ hx)
    simp only [List.cons_append, splitOnColon, if_neg hc, List.append_eq, ih ha]

theorem splitOnColon_no_colon {a : List Char} (h : ∀ c ∈ a, c ≠ ':') :
    splitOnColon a = [a] := by
  have := splitOnColon_append_no_colon h []
  simpa [splitOnColon] using this

theorem splitOnColon_encrypt (enc tagF : List Nat → List Nat → List Nat → List Nat)
    (key iv pt : List Nat)
    (hiv : ∀ b ∈ iv, b < 256)
    (hct : ∀ b ∈ enc key iv pt, b < 256)
    (htag : ∀ b ∈ tagF key iv (enc key iv pt), b < 256) :
    splitOnColon (encrypt enc tagF key iv pt) =
      [hexEncode iv, hexEncode (tagF key iv (enc key iv pt)),
        hexEncode (enc key iv pt)] := by
  unfold encrypt
  rw [splitOnColon_append_no_colon (ne_colon_of_mem_hexEncode hiv)]
  have h2 : splitOnColon (':' :: (hexEncode (tagF key iv (enc key iv pt)) ++
      ':' :: hexEncode (enc key iv pt))) =
      [] :: splitOnColon (hexEncode (tagF key iv (enc key iv pt)) ++
        ':' :: hexEncode (enc key iv pt)) := by
    simp [splitOnColon]
  rw [h2, splitOnColon_append_no_colon (ne_colon_of_mem_hexEncode htag)]
  have h3 : splitOnColon (':' :: hexEncode (enc key iv pt)) =
      [] :: splitOnColon (hexEncode (enc key iv pt)) := by
    simp [splitOnColon]
  rw [h3, splitOnColon_no_colon (ne_colon_of_mem_hexEncode hct)]
  simp

/-- C4 — For every plaintext `pt` (and any fresh nonce `iv` the platform
supplies), provided the platform AES-256-GCM primitives meet their contract
(`dec` inverts `enc`, and `iv`, ciphertext and tag are byte sequences),
`decrypt` applied to the untampered envelope produced by `encrypt` recovers
exactly the original plaintext. -/
theorem decrypt_encrypt_roundtrip
    (enc dec tagF : List Nat → List Nat → List Nat → List Nat)
    (key iv pt : List Nat)
    (hiv : ∀ b ∈ iv, b < 256)
    (hct : ∀ b ∈ enc key iv pt, b < 256)
    (htag : ∀ b ∈ tagF key iv (enc key iv pt), b < 256)
    (hdec : dec key iv (enc key iv pt) = pt) :
    decrypt dec tagF key (encrypt enc tagF key iv pt) = some pt := by
  unfold decrypt
  rw [splitOnColon_encrypt enc tagF key iv pt hiv hct htag]
  simp [hexDecode_hexEncode hiv, hexDecode_hexEncode htag,
    hexDecode_hexEncode hct, hdec]

/-- Witness for `decrypt_encrypt_roundtrip`: a concrete cipher satisfying the
authenticated-encryption contract, a 16-byte nonce and the plaintext bytes of
`"12345678901234"` round-trip through the envelope. -/
theorem decrypt_encrypt_roundtrip_witness :
    decrypt (fun _ _ ct => ct) (fun _ _ _ => List.replicate 16 7) []
      (encrypt (fun _ _ pt => pt) (fun _ _ _ => List.replicate 16 7) []
        (List.replicate 16 0) [49, 50, 51, 52, 53, 54, 55, 56]) =
      some [49, 50, 51, 52, 53, 54, 55, 56] :=
  decrypt_encrypt_roundtrip (fun _ _ pt => pt) (fun _ _ ct => ct)
    (fun _ _ _ => List.replicate 16 7) [] (List.replicate 16 0)
    [49, 50, 51, 52, 53, 54, 55, 56] (by decide) (by decide) (by decide) rfl

/-- C10 — `Profile.getDecryptedNationalId` is total and never raises: it
returns `none` when the stored `national_id` is `null`, `none` whenever
`decrypt` fails (in particular on a wrong delimiter count), and the decrypted
plaintext when `decrypt` succeeds. -/
theorem getDecryptedNationalId_total
    (dec tagF : List Nat → List Nat → List Nat → List Nat) (key : List Nat) :
    getDecryptedNationalId dec tagF key none = none ∧
    (∀ s, decrypt dec tagF key s = none →
      getDecryptedNationalId dec tagF key (some s) = none) ∧
    (∀ s pt, decrypt dec tagF key s = some pt →
      getDecryptedNationalId dec tagF key (some s) = some pt) ∧
    (∀ s, (splitOnColon s).length ≠ 3 →
      getDecryptedNationalId dec tagF key (some s) = none) := by
  refine ⟨rfl, ?_, ?_, ?_⟩
  · intro s h
    by_cases hs : s.isEmpty <;> simp [getDecryptedNationalId, hs, h]
  · intro s pt h
    cases s with
    | nil => exact absurd h (by simp [decrypt, splitOnColon])
    | cons c t => simpa [getDecryptedNationalId] using h
  · intro s h
    have hd : decrypt dec tagF key s = none := by
      unfold decrypt
      cases hsp : splitOnColon s with
      | nil => rfl
      | cons a t =>
        cases t with
        | nil => rfl
        | cons b t2 =>
          cases t2 with
          | nil => rfl
          | cons c t3 =>
            cases t3 with
            | nil => exact absurd (by rw [hsp]; rfl) h
            | cons d t4 => rfl
    by_cases hs : s.isEmpty <;> simp [getDecryptedNationalId, hs, hd]

/-- Witness for `getDecryptedNationalId_total`: on a stored value with no
delimiter at all, decryption fails and the getter returns `none`. -/
theorem getDecryptedNationalId_total_witness :
    getDecryptedNationalId (fun _ _ ct => ct) (fun _ _ _ => []) []
      (some ['x']) = none :=
  (getDecryptedNationalId_total (fun _ _ ct => ct) (fun _ _ _ => []) []).2.1
    ['x'] rfl

/-! ## Claim theorems -/

/-- C1 — the account auto-provisioned by `loginWithGoogle` stores the bcrypt
hash of the fixed placeholder string `"GOOGLE_OAUTH_USER"`, so
`comparePassword` accepts that very string, and a password `login` against
the provisioned account with it succeeds — the stored credential is not a
sentinel that rejects every user-supplied password. -/
theorem googleSentinelPasswordLoginSucceeds :
    bcryptCompare "GOOGLE_OAUTH_USER"
      (googleProvisionedUser "alice@example.com" 3 1).password_hash = true ∧
    login "alice@example.com" "GOOGLE_OAUTH_USER" exGoogleDb =
      .ok ⟨googleProvisionedUser "alice@example.com" 3 1,
        googleProvisionedProfile exGoogleInfo 1 2⟩ :=
  ⟨rfl, rfl⟩

/-- C2 (counterexample) — at a call time exactly equal to the stored expiry,
`resetPassword` accepts the token: the expiry comparison in the source is
`expires < now`, not `expires ≤ now`, so the claim's "at t exactly equal to
the stored expiry the token is invalid" is false. -/
theorem resetPassword_accepts_token_at_exact_expiry :
    (resetPassword (fun s => s) "tok" "NewPass1" 5 1000 exResetDb).1 =
      .ok ⟨true, "Password reset successful. You can now login with your new password."⟩ :=
  rfl

/-- C2 (amended) — `resetPassword` (resp. `verifyEmail`) with candidate `c`
succeeds iff some stored hash equals the SHA-256 hash of `c` and the stored
expiry is at or after the call time `now` (a token at its exact expiry
instant is still accepted); otherwise it fails with the invalid-token error
(no hash match) or the expired error (missing or past expiry), leaving the
store unchanged. -/
theorem tokenValidityCharacterization
    (hashTok : String → String) (c pw : String) (salt now : Nat) (db : DB) :
    (db.users.find? (fun v => v.reset_token_hash == some (hashTok c)) = none →
      resetPassword hashTok c pw salt now db =
        (.error ⟨"Invalid or expired reset token", 400, "INVALID_RESET_TOKEN"⟩, db)) ∧
    (∀ u, db.users.find? (fun v => v.reset_token_hash == some (hashTok c)) = some u →
      (u.reset_token_expires = none ∨ ∃ e, u.reset_token_expires = some e ∧ e < now) →
      resetPassword hashTok c pw salt now db =
        (.error ⟨"Reset token has expired", 400, "RESET_TOKEN_EXPIRED"⟩, db)) ∧
    (∀ u e, db.users.find? (fun v => v.reset_token_hash == some (hashTok c)) = some u →
      u.reset_token_expires = some e → now ≤ e →
      (resetPassword hashTok c pw salt now db).1 =
        .ok ⟨true, "Password reset successful. You can now login with your new password."⟩) ∧
    (∀ r db', resetPassword hashTok c pw salt now db = (.ok r, db') →
      ∃ u e,
        db.users.find? (fun v => v.reset_token_hash == some (hashTok c)) = some u ∧
        u.reset_token_expires = some e ∧ now ≤ e) ∧
    (db.users.find?
        (fun v => v.email_verification_token_hash == some (hashTok c)) = none →
      verifyEmail hashTok c now db =
        (.error ⟨"Invalid or expired verification token", 400, "INVALID_VERIFICATION_TOKEN"⟩, db)) ∧
    (∀ u, db.users.find?
        (fun v => v.email_verification_token_hash == some (hashTok c)) = some u →
      (u.email_verification_token_expires = none ∨
        ∃ e, u.email_verification_token_expires = some e ∧ e < now) →
      verifyEmail hashTok c now db =
        (.error ⟨"Verification token has expired. Please request a new one.", 400, "VERIFICATION_TOKEN_EXPIRED"⟩, db)) ∧
    (∀ u e, db.users.find?
        (fun v => v.email_verification_token_hash == some (hashTok c)) = some u →
      u.email_verification_token_expires = some e → now ≤ e →
      (verifyEmail hashTok c now db).1 =
        .ok ⟨true, "Email verified successfully! You can now complete your profile verification.", true⟩) ∧
    (∀ r db', verifyEmail hashTok c now db = (.ok r, db') →
      ∃ u e,
        db.users.find?
          (fun v => v.email_verification_token_hash == some (hashTok c)) = some u ∧
        u.email_verification_token_expires = some e ∧ now ≤ e) := by
  refine ⟨?_, ?_, ?_, ?_, ?_, ?_, ?_, ?_⟩
  · intro h
    unfold resetPassword
    rw [h]
  · intro u hf hexp
    unfold resetPassword
    rcases hexp with he | ⟨e, he, hlt⟩
    · simp [hf, he]
    · simp [hf, he, hlt]
  · intro u e hf he hle
    unfold resetPassword
    simp [hf, he, Nat.not_lt.mpr hle]
  · intro r db' h
    unfold resetPassword at h
    cases hf : db.users.find? (fun v => v.reset_token_hash == some (hashTok c)) with
    | none => simp [hf] at h
    | some u =>
      cases he : u.reset_token_expires with
      | none => simp [hf, he] at h
      | some e =>
        by_cases hlt : e < now
        · simp [hf, he, hlt] at h
        · exact ⟨u, e, rfl, he, Nat.le_of_not_lt hlt⟩
  · intro h
    unfold verifyEmail
    rw [h]
  · intro u hf hexp
    unfold verifyEmail
    rcases hexp with he | ⟨e, he, hlt⟩
    · simp [hf, he]
    · simp [hf, he, hlt]
  · intro u e hf he hle
    unfold verifyEmail
    simp [hf, he, Nat.not_lt.mpr hle]
  · intro r db' h
    unfold verifyEmail at h
    cases hf : db.users.find?
        (fun v => v.email_verification_token_hash == some (hashTok c)) with
    | none => simp [hf] at h
    | some u =>
      cases he : u.email_verification_token_expires with
      | none => simp [hf, he] at h
      | some e =>
        by_cases hlt : e < now
        · simp [hf, he, hlt] at h
        · exact ⟨u, e, rfl, he, Nat.le_of_not_lt hlt⟩

/-- Witness for `tokenValidityCharacterization`: with no matching stored
hash, `resetPassword` fails with the invalid-token error and leaves the
(empty) store unchanged. -/
theorem tokenValidityCharacterization_witness :
    resetPassword (fun s => s) "nope" "NewPass1" 5 0 ⟨[], []⟩ =
      (.error ⟨"Invalid or expired reset token", 400, "INVALID_RESET_TOKEN"⟩, ⟨[], []⟩) :=
  (tokenValidityCharacterization (fun s => s) "nope" "NewPass1" 5 0 ⟨[], []⟩).1 rfl

/-- C3 — once `resetPassword` succeeds with token `T` (clearing the stored
hash and expiry in the same update that stores the new password), a second
`resetPassword` with the same `T` fails with the invalid-token error and
leaves the store unchanged, provided `T`'s hash matched a single stored row
(SHA-256 collisions between distinct rows aside). -/
theorem resetToken_single_use
    (hashTok : String → String) (tok pw1 pw2 : String)
    (salt1 now1 salt2 now2 : Nat) (db : DB) (r : AuthSuccessResponse) (db' : DB)
    (h1 : resetPassword hashTok tok pw1 salt1 now1 db = (.ok r, db'))
    (huniq : ∀ u ∈ db.users, ∀ v ∈ db.users,
      u.reset_token_hash = some (hashTok tok) →
      v.reset_token_hash = some (hashTok tok) → u = v) :
    resetPassword hashTok tok pw2 salt2 now2 db' =
      (.error ⟨"Invalid or expired reset token", 400, "INVALID_RESET_TOKEN"⟩, db') := by
  unfold resetPassword at h1
  cases hf : db.users.find? (fun v => v.reset_token_hash == some (hashTok tok)) with
  | none => simp [hf] at h1
  | some u0 =>
    have hmem0 : u0 ∈ db.users := List.mem_of_find?_eq_some hf
    have hhash0 : u0.reset_token_hash = some (hashTok tok) := by
      have := List.find?_some hf
      simpa using this
    cases he : u0.reset_token_expires with
    | none => simp [hf, he] at h1
    | some e =>
      by_cases hlt : e < now1
      · simp [hf, he, hlt] at h1
      · have hdb' : db' =
            ⟨db.users.map (fun u =>
                if u.id == u0.id then
                  { u with password_hash := bcryptHash pw1 salt1
                           reset_token_hash := none
                           reset_token_expires := none }
                else u),
              db.profiles⟩ := by
          rw [hf] at h1
          dsimp only at h1
          rw [he] at h1
          dsimp only at h1
          rw [if_neg hlt] at h1
          exact (congrArg Prod.snd h1).symm
        have hnone : db'.users.find?
            (fun v => v.reset_token_hash == some (hashTok tok)) = none := by
          rw [hdb']
          refine List.find?_eq_none.mpr ?_
          intro w hw
          simp only [List.mem_map] at hw
          obtain ⟨u, hu, rfl⟩ := hw
          by_cases hid : u.id == u0.id
          · simp [hid]
          · simp only [hid, if_neg, Bool.false_eq_true, ite_false]
            intro hcontra
            have huh : u.reset_token_hash = some (hashTok tok) := by
              simpa using hcontra
            have : u = u0 := huniq u hu u0 hmem0 huh hhash0
            rw [this] at hid
            simp at hid
        unfold resetPassword
        rw [hnone]

/-- Witness for `resetToken_single_use`: the concrete token `"tok3"` is
consumed once and then rejected. -/
theorem resetToken_single_use_witness :
    resetPassword (fun s => s) "tok3" "NewPass2" 8 20 exConsumedDb =
      (.error ⟨"Invalid or expired reset token", 400, "INVALID_RESET_TOKEN"⟩, exConsumedDb) :=
  resetToken_single_use (fun s => s) "tok3" "NewPass1" "NewPass2" 7 10 8 20
    exConsumeDb
    ⟨true, "Password reset successful. You can now login with your new password."⟩
    exConsumedDb rfl (by decide)

theorem getElem?_lt_of_some {α : Type} {l : List α} {i : Nat} {a : α}
    (h : l[i]? = some a) : i < l.length :=
  (List.getElem?_eq_some.mp h).1

theorem usersMono_id {l : List StoredUser} {i : Nat} {u : StoredUser}
    (hu : l[i]? = some u) :
    ∃ v, l[i]? = some v ∧ v.id = u.id ∧
      (u.is_verified = true → v.is_verified = true) :=
  ⟨u, hu, rfl, fun h => h⟩

theorem usersMono_append {l l' : List StoredUser} {i : Nat} {u : StoredUser}
    (hu : l[i]? = some u) :
    ∃ v, (l ++ l')[i]? = some v ∧ v.id = u.id ∧
      (u.is_verified = true → v.is_verified = true) := by
  refine ⟨u, ?_, rfl, fun h => h⟩
  rw [List.getElem?_append]
  simp [getElem?_lt_of_some hu, hu]

theorem usersMono_map {l : List StoredUser} {i : Nat} {u : StoredUser}
    (f : StoredUser → StoredUser)
    (hid : ∀ w, (f w).id = w.id)
    (hver : ∀ w, w.is_verified = true → (f w).is_verified = true)
    (hu : l[i]? = some u) :
    ∃ v, (l.map f)[i]? = some v ∧ v.id = u.id ∧
      (u.is_verified = true → v.is_verified = true) := by
  refine ⟨f u, ?_, hid u, hver u⟩
  rw [List.getElem?_map, hu]
  rfl

theorem apply_users_mono (op : Op) (db : DB) (i : Nat) (u : StoredUser)
    (hu : db.users[i]? = some u) :
    ∃ v, (op.apply db).users[i]? = some v ∧ v.id = u.id ∧
      (u.is_verified = true → v.is_verified = true) := by
  cases op with
  | opRegister input salt uid pid =>
    dsimp only [Op.apply]
    unfold register
    split
    · exact usersMono_id hu
    · split
      · exact usersMono_id hu
      · exact usersMono_append hu
  | opLogin identifier password =>
    exact usersMono_id hu
  | opCompleteVerification userId input encryptFn =>
    dsimp only [Op.apply]
    unfold completeVerification
    split
    · exact usersMono_id hu
    · split
      · exact usersMono_id hu
      · split
        · exact usersMono_id hu
        · split
          · exact usersMono_id hu
          · refine usersMono_map _ ?_ ?_ hu
            · intro w
              by_cases h : w.id == userId <;> simp [h]
            · intro w hw
              by_cases h : w.id == userId <;> simp [h, hw]
  | opForgotPassword hashTok email token now =>
    dsimp only [Op.apply]
    unfold forgotPassword
    split
    · exact usersMono_id hu
    · next user heq =>
      refine usersMono_map _ ?_ ?_ hu
      · intro w
        by_cases h : w.id == user.id <;> simp [h]
      · intro w hw
        by_cases h : w.id == user.id <;> simp [h, hw]
  | opResetPassword hashTok token newPassword salt now =>
    dsimp only [Op.apply]
    unfold resetPassword
    split
    · exact usersMono_id hu
    · next user heq =>
      split
      · exact usersMono_id hu
      · split
        · exact usersMono_id hu
        · refine usersMono_map _ ?_ ?_ hu
          · intro w
            by_cases h : w.id == user.id <;> simp [h]
          · intro w hw
            by_cases h : w.id == user.id <;> simp [h, hw]
  | opLoginWithGoogle googleUser salt uid pid =>
    dsimp only [Op.apply]
    unfold loginWithGoogle
    split
    · exact usersMono_id hu
    · split
      · exact usersMono_id hu
      · split
        · split
          · exact usersMono_id hu
          · exact usersMono_id hu
        · exact usersMono_append hu
  | opUpdateProfile userId input =>
    dsimp only [Op.apply]
    unfold updateProfile
    split
    · exact usersMono_id hu
    · split
      · exact usersMono_id hu
      · exact usersMono_id hu
  | opSendVerificationEmail hashTok userId token now =>
    dsimp only [Op.apply]
    unfold sendVerificationEmail
    split
    · exact usersMono_id hu
    · split
      · exact usersMono_id hu
      · refine usersMono_map _ ?_ ?_ hu
        · intro w
          by_cases h : w.id == userId <;> simp [h]
        · intro w hw
          by_cases h : w.id == userId <;> simp [h, hw]
  | opVerifyEmail hashTok token now =>
    dsimp only [Op.apply]
    unfold verifyEmail
    split
    · exact usersMono_id hu
    · next user heq =>
      split
      · exact usersMono_id hu
      · split
        · exact usersMono_id hu
        · refine usersMono_map _ ?_ ?_ hu
          · intro w
            by_cases h : w.id == user.id <;> simp [h]
          · intro w hw
            by_cases h : w.id == user.id <;> simp [h, hw]

theorem runOps_cons (op : Op) (ops : List Op) (db : DB) :
    runOps (op :: ops) db = runOps ops (op.apply db) := rfl

/-- C5 — across any sequence of lifecycle operations, an account whose
`is_verified` flag is `true` keeps it `true`: the flag never transitions
from `true` back to `false` (rows are never removed or reordered, so the
account is tracked by its position). -/
theorem isFullyVerifiedMonotonic (ops : List Op) (db : DB) (i : Nat)
    (u : StoredUser) (hu : db.users[i]? = some u) (hv : u.is_verified = true) :
    ∃ v, (runOps ops db).users[i]? = some v ∧ v.id = u.id ∧
      v.is_verified = true := by
  induction ops generalizing db u with
  | nil => exact ⟨u, hu, rfl, hv⟩
  | cons op ops ih =>
    obtain ⟨w, hw, hwid, hwver⟩ := apply_users_mono op db i u hu
    obtain ⟨v, hv2, hvid, hvver⟩ := ih (op.apply db) w hw (hwver hv)
    rw [runOps_cons]
    exact ⟨v, hv2, by rw [hvid, hwid], hvver⟩

/-- Witness for `isFullyVerifiedMonotonic`: a verified account stays verified
across a concrete six-operation lifecycle sequence. -/
theorem isFullyVerifiedMonotonic_witness :
    ∃ v, (runOps exOps exSeqDb).users[0]? = some v ∧
      v.id = exVerifiedUser.id ∧ v.is_verified = true :=
  isFullyVerifiedMonotonic exOps exSeqDb 0 exVerifiedUser rfl rfl

/-- C6 — registering with an email that already belongs to a stored account
(case-insensitively: lookup and storage both lowercase) fails with the 409
`EMAIL_EXISTS` conflict and leaves the store unchanged; and in general
`register` either leaves the store unchanged (any error) or appends exactly
the user/profile pair as one atomic unit. -/
theorem register_conflict_and_atomic (input : RegisterRequest)
    (salt uid pid : Nat) (db : DB) :
    ((∃ u ∈ db.users, u.email = toLowerCase input.email) →
      register input salt uid pid db =
        (.error ⟨"Email already registered", 409, "EMAIL_EXISTS"⟩, db)) ∧
    ((register input salt uid pid db).2 = db ∨
      ((register input salt uid pid db).1 =
          .ok ⟨true, "Registration successful. Please complete your profile verification to access all features."⟩ ∧
        (register input salt uid pid db).2.users =
          db.users ++ [registeredUser input salt uid] ∧
        (register input salt uid pid db).2.profiles =
          db.profiles ++ [registeredProfile input uid pid])) := by
  constructor
  · rintro ⟨u, hu, he⟩
    have hsome : (db.users.find?
        (fun v => v.email == toLowerCase input.email)).isSome :=
      List.find?_isSome.mpr ⟨u, hu, by simp [he]⟩
    obtain ⟨w, hw⟩ := Option.isSome_iff_exists.mp hsome
    unfold register
    rw [hw]
  · unfold register
    split
    · left
      rfl
    · split
      · left
        rfl
      · right
        exact ⟨rfl, rfl, rfl⟩

/-- Witness for `register_conflict_and_atomic`: a second registration with
the same email in different letter case hits the 409 conflict and changes
nothing. -/
theorem register_conflict_and_atomic_witness :
    register exRegInput 0 5 6 exRegDb =
      (.error ⟨"Email already registered", 409, "EMAIL_EXISTS"⟩, exRegDb) :=
  (register_conflict_and_atomic exRegInput 0 5 6 exRegDb).1
    ⟨exRegUser, by decide, by decide⟩

/-- C8 — for an account that is neither fully verified nor email-verified,
`completeVerification` fails closed with the distinct 400 `EMAIL_NOT_VERIFIED`
precondition error and leaves both tables unchanged. -/
theorem completeVerification_fails_closed_without_email
    (userId : Nat) (input : CompleteVerificationRequest)
    (encryptFn : String → String) (db : DB) (u : StoredUser)
    (hf : db.users.find? (fun v => v.id == userId) = some u)
    (hnv : u.is_verified = false) (hne : u.email_verified = false) :
    completeVerification userId input encryptFn db =
      (.error ⟨"Please verify your email address first before completing profile verification", 400, "EMAIL_NOT_VERIFIED"⟩, db) := by
  unfold completeVerification
  simp [hf, hnv, hne]

/-- Witness for `completeVerification_fails_closed_without_email` at a
concrete unverified account. -/
theorem completeVerification_fails_closed_without_email_witness :
    completeVerification 5 ⟨"29001011234567", .FEMALE, 7305⟩ (fun s => s)
      exUnverDb =
      (.error ⟨"Please verify your email address first before completing profile verification", 400, "EMAIL_NOT_VERIFIED"⟩, exUnverDb) :=
  completeVerification_fails_closed_without_email 5
    ⟨"29001011234567", .FEMALE, 7305⟩ (fun s => s) exUnverDb exUnverUser
    rfl rfl rfl

/-- C9 — for an account whose email is already verified,
`sendVerificationEmail` short-circuits with the success no-op response and
leaves the store exactly as it was: no token is minted and the stored
verification-token hash/expiry fields are untouched. -/
theorem sendVerificationEmail_noop_when_already_verified
    (hashTok : String → String) (userId : Nat) (token : String) (now : Nat)
    (db : DB) (u : StoredUser)
    (hf : db.users.find? (fun v => v.id == userId) = some u)
    (hv : u.email_verified = true) :
    sendVerificationEmail hashTok userId token now db =
      (.ok ⟨true, "Email is already verified.", true⟩, db) := by
  unfold sendVerificationEmail
  simp [hf, hv]

/-- Witness for `sendVerificationEmail_noop_when_already_verified` at a
concrete verified account. -/
theorem sendVerificationEmail_noop_when_already_verified_witness :
    sendVerificationEmail (fun s => s) 8 "tk" 100 exEmailVerDb =
      (.ok ⟨true, "Email is already verified.", true⟩, exEmailVerDb) :=
  sendVerificationEmail_noop_when_already_verified (fun s => s) 8 "tk" 100
    exEmailVerDb exEmailVerUser rfl rfl

theorem stringList_contains_iff (l : List String) (s : String) :
    l.contains s = true ↔ s ∈ l := by
  show l.elem s = true ↔ s ∈ l
  exact List.elem_iff

theorem mem_plusVariants (phoneInput s : String) :
    s ∈ plusVariants phoneInput ↔
      s = phoneInput ∨
      ∃ k, 1 ≤ k ∧ k ≤ 4 ∧
        9 ≤ lengthString (dropString (dropString phoneInput 1) k) ∧
        s = String.mk ('0' :: (dropString (dropString phoneInput 1) k).data) := by
  unfold plusVariants
  simp only [List.mem_cons, List.mem_filterMap, List.mem_range]
  constructor
  · rintro (rfl | ⟨j, hj, hif⟩)
    · exact Or.inl rfl
    · right
      rw [Option.ite_none_right_eq_some] at hif
      obtain ⟨hlen, heq⟩ := hif
      exact ⟨j + 1, by omega, by omega, hlen, (Option.some.inj heq).symm⟩
  · rintro (rfl | ⟨k, hk1, hk4, hlen, rfl⟩)
    · exact Or.inl rfl
    · right
      refine ⟨k - 1, ?_, ?_⟩
      · have hlen2 : lengthString (dropString (dropString phoneInput 1) k) =
            lengthString (dropString phoneInput 1) - k := by
          simp [lengthString, dropString]
          omega
        omega
      · rw [Option.ite_none_right_eq_some]
        have hk : k - 1 + 1 = k := by omega
        rw [hk]
        exact ⟨hlen, rfl⟩

/-- C7 (counterexample) — for the international identifier
`"+20 123456789"` (no `'@'`, starts with `'+'`), the resolver's `'+'` branch
resolves a stored profile whose phone `"0 123456789"` is NOT the identifier
itself nor any variant built from the *digits* after `'+'` as the claim
describes: the source strips leading characters (here including the space),
not digits. -/
theorem plusBranch_resolves_outside_digit_variants :
    containsCharString "+20 123456789" '@' = false ∧
    startsWithString (trimString "+20 123456789") "+" = true ∧
    resolveProfileByPhone "+20 123456789" exPhoneDb = some exPhoneProfile ∧
    exPhoneProfile.phone_number ∉ specPlusVariants "+20 123456789" := by
  refine ⟨rfl, rfl, rfl, ?_⟩
  decide

/-- C7 (amended) — for an identifier with no `'@'` whose trimmed form starts
with `'+'`: the resolver's `'+'` branch resolves only a stored profile whose
phone equals the trimmed identifier exactly, or equals a variant obtained by
stripping `k` leading *characters* (1 ≤ k ≤ 4) from the substring after `'+'`
and prefixing the remainder with `'0'`, the variant existing only when the
remainder has at least 9 characters; and when no stored profile matches any
such candidate the branch resolves nothing. -/
theorem plusBranch_characterization (identifier : String) (db : DB)
    (_hat : containsCharString identifier '@' = false)
    (hplus : startsWithString (trimString identifier) "+" = true) :
    (∀ p, resolveProfileByPhone identifier db = some p →
      p ∈ db.profiles ∧
        (p.phone_number = trimString identifier ∨
          ∃ k, 1 ≤ k ∧ k ≤ 4 ∧
            9 ≤ lengthString (dropString (dropString (trimString identifier) 1) k) ∧
            p.phone_number =
              String.mk
                ('0' :: (dropString (dropString (trimString identifier) 1) k).data))) ∧
    ((∀ p ∈ db.profiles,
        ¬(p.phone_number = trimString identifier ∨
          ∃ k, 1 ≤ k ∧ k ≤ 4 ∧
            9 ≤ lengthString (dropString (dropString (trimString identifier) 1) k) ∧
            p.phone_number =
              String.mk
                ('0' :: (dropString (dropString (trimString identifier) 1) k).data))) →
      resolveProfileByPhone identifier db = none) := by
  constructor
  · intro p hp
    unfold resolveProfileByPhone at hp
    rw [if_pos hplus] at hp
    refine ⟨List.mem_of_find?_eq_some hp, ?_⟩
    have hc := List.find?_some hp
    have hmem : p.phone_number ∈ plusVariants (trimString identifier) :=
      (stringList_contains_iff _ _).mp hc
    exact (mem_plusVariants _ _).mp hmem
  · intro hall
    unfold resolveProfileByPhone
    rw [if_pos hplus]
    refine List.find?_eq_none.mpr ?_
    intro p hp hcontra
    exact hall p hp
      ((mem_plusVariants _ _).mp ((stringList_contains_iff _ _).mp hcontra))

/-- Witness for `plusBranch_characterization`: the resolved profile for
`"+20 123456789"` is in the store and matches a character-stripped
candidate. -/
theorem plusBranch_characterization_witness :
    exPhoneProfile ∈ exPhoneDb.profiles ∧
      (exPhoneProfile.phone_number = trimString "+20 123456789" ∨
        ∃ k, 1 ≤ k ∧ k ≤ 4 ∧
          9 ≤ lengthString (dropString (dropString (trimString "+20 123456789") 1) k) ∧
          exPhoneProfile.phone_number =
            String.mk
              ('0' :: (dropString (dropString (trimString "+20 123456789") 1) k).data)) :=
  (plusBranch_characterization "+20 123456789" exPhoneDb rfl rfl).1
    exPhoneProfile rfl
